import Mathlib

/-!
Verification of the Maxwell knowledge-base manager against its specification.

The Python sources are shallowly embedded: each relevant function is
translated into a Lean definition over explicit data (lists of rows stand for
database tables, a record of optional tables stands for the SQLite file,
rationals stand for Python floats).  External collaborators (the SQLite FTS5
engine, `hashlib.md5`, the salted builtin `hash`) are modelled as explicit
parameters or, where the spec fixes their behaviour, by definitions whose doc
comment says so.  Python exceptions are modelled with `Except` / explicit
error components.
-/

namespace Maxwell

/-! ## Python string primitives

Helpers mirroring the Python string operations the sources use.  Contents are
manipulated as `List Char` and wrapped back into `String`. -/

/-- The Python `\s` class (ASCII range, as used by `re.sub` over `\s+`
and by `str.strip()` / `str.split()`). -/
def pyIsSpace (c : Char) : Bool :=
  c == ' ' || c == '\t' || c == '\n' || c == '\r' || c == '\x0b' || c == '\x0c'

/-- `str.strip()`: drop leading and trailing whitespace. -/
def stripList (l : List Char) : List Char :=
  ((l.dropWhile pyIsSpace).reverse.dropWhile pyIsSpace).reverse

/-- Helper for `collapseWs`: the flag records whether the previous character
belonged to a whitespace run already replaced by a single space. -/
def collapseWsAux : Bool → List Char → List Char
  | _, [] => []
  | prevSpace, c :: rest =>
    if pyIsSpace c then
      if prevSpace then collapseWsAux true rest
      else ' ' :: collapseWsAux true rest
    else c :: collapseWsAux false rest

/-- Collapse every maximal run of whitespace into a single space
(`re.sub` of `\s+`). -/
def collapseWs (l : List Char) : List Char :=
  collapseWsAux false l

/-- `re.sub` of `\s+` to a single space over `content.strip()`: the whitespace normalisation used
by `_calculate_content_hash` and `_find_exact_duplicates`. -/
def normalizeWs (s : String) : String :=
  ⟨collapseWs (stripList s.data)⟩

/-- `str.lower()` (ASCII). -/
def pyLower (s : String) : String :=
  ⟨s.data.map Char.toLower⟩

/-- Helper for `str.split()`: accumulates the current word (reversed). -/
def pySplitAux : List Char → List Char → List String
  | [], cur => if cur.isEmpty then [] else [⟨cur.reverse⟩]
  | c :: rest, cur =>
    if pyIsSpace c then
      if cur.isEmpty then pySplitAux rest [] else ⟨cur.reverse⟩ :: pySplitAux rest []
    else pySplitAux rest (c :: cur)

/-- `str.split()` with no argument: split on whitespace runs, no empty words. -/
def pySplit (s : String) : List String :=
  pySplitAux s.data []

/-- Helper for splitting on one separator character, keeping empty pieces
(Python `str.split(sep)`). -/
def splitCharAux (sep : Char) : List Char → List Char → List String
  | [], cur => [⟨cur.reverse⟩]
  | c :: rest, cur =>
    if c == sep then ⟨cur.reverse⟩ :: splitCharAux sep rest []
    else splitCharAux sep rest (c :: cur)

/-- Python `str.split(sep)` for a one-character separator (empties kept). -/
def splitChar (sep : Char) (s : String) : List String :=
  splitCharAux sep s.data []

/-- `content.split` at newlines. -/
def pyLines (s : String) : List String :=
  splitChar '\n' s

/-- Is `pre` an initial segment of `l`? -/
def leadsWith : List Char → List Char → Bool
  | [], _ => true
  | _ :: _, [] => false
  | a :: as, b :: bs => a == b && leadsWith as bs

/-- `s.startswith(p)`. -/
def strStarts (s p : String) : Bool :=
  leadsWith p.data s.data

/-- Does `needle` occur as a contiguous substring of `hay`
(Python `needle in hay`)? -/
def containsSub (needle : List Char) : List Char → Bool
  | [] => needle.isEmpty
  | c :: rest => leadsWith needle (c :: rest) || containsSub needle rest

/-- Python `needle in hay` on strings. -/
def strContains (hay needle : String) : Bool :=
  containsSub needle.data hay.data

/-- Python single-character `str.replace(a, b)` (every occurrence). -/
def pyReplaceChar (s : String) (a b : Char) : String :=
  ⟨s.data.map (fun c => if c == a then b else c)⟩

/-- Python slicing `s[:n]`. -/
def pyTake (n : ℕ) (s : String) : String :=
  ⟨s.data.take n⟩

/-- Python slicing `s[n:]`. -/
def strDrop (s : String) (n : ℕ) : String :=
  ⟨s.data.drop n⟩

/-- `str.strip()` on a `String`. -/
def pyStrip (s : String) : String :=
  ⟨stripList s.data⟩

/-- `sep.join(parts)`. -/
def pyJoin (sep : String) : List String → String
  | [] => ""
  | [x] => x
  | x :: y :: rest => x ++ sep ++ pyJoin sep (y :: rest)

/-- Number of distinct elements of `a` that also occur in `b`:
`len(set(a) & set(b))`. -/
def interCount (a b : List String) : ℕ :=
  (a.dedup.filter (fun x => b.contains x)).length

/-- Python exceptions the embedded code can raise or swallow. -/
inductive PyErr where
  | nameError
  | valueError
  | operationalError
  deriving Repr, DecidableEq

/-- Insertion into a Python `dict` modelled as an association list: an
existing key is updated in place (keeping its insertion position), a new key
is appended at the end. -/
def assocInsert {α β : Type} [BEq α] (d : List (α × β)) (k : α) (v : β) :
    List (α × β) :=
  if d.any (fun p => p.1 == k) then d.map (fun p => if p.1 == k then (k, v) else p)
  else d ++ [(k, v)]

/-- `dict` lookup on the association-list model. -/
def dictGet {α β : Type} [BEq α] (d : List (α × β)) (k : α) : Option β :=
  match d with
  | [] => none
  | (k', v) :: rest => if k' == k then some v else dictGet rest k

/-! ## Duplicate detector (`skills/maxwell-librarian/tools/duplicate_detector.py`)

The `reference` table is modelled as a list of rows; the `tags` column (a
JSON array) is modelled already parsed, with `none` standing for a NULL or
malformed value (which `_find_common_tags` skips). -/

/-- A row of the `reference` table as the duplicate detector reads it. -/
structure RefRow where
  title : String
  content : String
  folder_path : String
  library : String
  tags : Option (List String)
  deriving Repr, DecidableEq

/-- The fixed technology-tag vocabulary of `_extract_tags`. -/
def techTags : List String :=
  ["swift", "swiftui", "uikit", "combinable", "tca", "visionos", "arkit",
   "realitykit", "coredata", "cloudkit", "metal", "shareplay",
   "spatial persona", "systemcoordinator"]

/-- `_extract_tags`: every vocabulary entry occurring as a substring of the
lower-cased content.  The source collects into a `set` and returns `list(tags)`;
the iteration order of the set is immaterial to every use (only membership and
intersection cardinalities are consumed), so the vocabulary order is kept. -/
def extractTags (content : String) : List String :=
  techTags.filter (fun t => strContains (pyLower content) t)

/-- `_extract_title`: first of the first 10 lines that starts with `"# "`,
else `"Untitled"`. -/
def extractTitle (content : String) : String :=
  match ((pyLines content).take 10).findSome? (fun ln =>
      let l := pyStrip ln
      if strStarts l "# " then some (pyStrip (strDrop l 2)) else none) with
  | some t => t
  | none => "Untitled"

/-- A markdown file of the analysed directory: `content? = none` models a
read error (the file is skipped with a warning). `stem` carries
`Path(...).stem`, which the import scripts use. -/
structure SrcFile where
  path : String
  relPath : String
  stem : String
  content? : Option String
  deriving Repr, DecidableEq

/-- The directory handed to `analyze_content` / `import_reference_documentation`. -/
structure FileSys where
  dirExists : Bool
  mdFiles : List SrcFile
  deriving Repr, DecidableEq

/-- `content[:500] + ("..." if len(content) > 500 else "")`. -/
def contentPreview (content : String) : String :=
  pyTake 500 content ++ (if content.data.length > 500 then "..." else "")

/-- `_calculate_content_hash` applies `hashlib.md5` to the normalised content
and keeps 16 hex digits; the external hash is modelled by the normalised
content itself.  (No pass of the detector ever reads this field.) -/
def calculateContentHash (content : String) : String :=
  normalizeWs content

/-- The per-file record `_get_document_files` builds.  `content` is carried
alongside because `_find_exact_duplicates` re-reads the file at
`new_file["path"]`. -/
structure CandFile where
  path : String
  relative_path : String
  size : ℕ
  word_count : ℕ
  hash : String
  title : String
  tags : List String
  content_preview : String
  content : String
  deriving Repr, DecidableEq

/-- The record built for one readable file in `_get_document_files`. -/
def mkCand (path relPath content : String) : CandFile :=
  { path := path
    relative_path := relPath
    size := content.data.length
    word_count := (pySplit content).length
    hash := calculateContentHash content
    title := extractTitle content
    tags := extractTags content
    content_preview := contentPreview content
    content := content }

/-- `_get_document_files`: empty when the directory is missing (a printed
warning, no exception); otherwise one record per readable `*.md` file,
unreadable files skipped. -/
def getDocumentFiles (fs : FileSys) : List CandFile :=
  if fs.dirExists then
    fs.mdFiles.filterMap (fun f => f.content?.map (mkCand f.path f.relPath))
  else []

/-- An entry of the `exact_duplicates` list (shape of the dict the source
would append). -/
structure DupEntry where
  new_file : String
  existing_title : String
  existing_library : String
  existing_path : String
  match_type : String
  deriving Repr, DecidableEq

/-- The dict `{(row[0], row[1]): row for row in cursor.fetchall()}` of
`_find_exact_duplicates`: keyed by `(title, content)`, later rows replacing
earlier ones with the same key. -/
def pyDictKeyed (db : List RefRow) : List ((String × String) × RefRow) :=
  db.foldl (fun d r => assocInsert d (r.title, r.content) r) []

/-- The loop of `_find_exact_duplicates`, with the exception it actually
raises: the inner `for existing_title, (existing_content, folder_path,
library) in existing_content.items()` unpacks each 4-tuple dict value into a
3-name pattern, so the first item of a non-empty dict raises `ValueError`
before anything is appended.  Returns the appended entries together with the
exception the blanket `except` swallows. -/
def exactDupLoop (keyed : List ((String × String) × RefRow)) :
    List CandFile → List DupEntry × Option PyErr
  | [] => ([], none)
  | _f :: rest =>
    match keyed with
    | [] => exactDupLoop keyed rest
    | _ :: _ => ([], some .valueError)

/-- `_find_exact_duplicates`: the whole body sits in a `try` whose `except`
prints a warning and falls through to `return duplicates`. -/
def findExactDuplicates (db : List RefRow) (files : List CandFile) :
    List DupEntry :=
  (exactDupLoop (pyDictKeyed db) files).1

/-- `SELECT content FROM reference WHERE library = ? LIMIT 5` (row order as
stored). -/
def libSamples (db : List RefRow) (lib : String) : List String :=
  ((db.filter (fun r => r.library == lib)).map (fun r => r.content)).take 5

/-- The union (as a list, membership-wise) of the tags extracted from a
sample contents of a library. -/
def libTagSample (db : List RefRow) (lib : String) : List String :=
  (libSamples db lib).foldl (fun acc s => acc ++ extractTags s) []

/-- `_calculate_overlap_score`.  Weights: tag overlap 0.4, content-keyword
overlap 0.6.  When the sample list is empty but the candidate content splits
into at least one word, `content_overlap / len(...) / len(existing_samples)`
raises `ZeroDivisionError`, the blanket `except` catches it and the whole
call returns `0.0`. -/
def calculateOverlapScore (db : List RefRow) (content : String)
    (tags : List String) (lib : String) : ℚ :=
  let samples := libSamples db lib
  let existingTags := libTagSample db lib
  let tagOverlap : ℕ := interCount tags existingTags
  let tagPart : ℚ :=
    if 0 < tags.length then (tagOverlap : ℚ) / (tags.length : ℚ) * (2 / 5) else 0
  let contentWords := pySplit (pyLower content)
  let contentOverlap : ℕ :=
    (samples.map (fun s => interCount contentWords (pySplit (pyLower s)))).sum
  let splitLen := (pySplit content).length
  if 0 < splitLen then
    if samples.length = 0 then 0
    else
      tagPart +
        (contentOverlap : ℚ) / (splitLen : ℚ) / (samples.length : ℚ) * (3 / 5)
  else tagPart

/-- `_find_common_tags`: union of the parsed `tags` JSON columns of the
library (NULL / malformed skipped) intersected with the candidate tags. -/
def findCommonTags (db : List RefRow) (newTags : List String) (lib : String) :
    List String :=
  let existing :=
    ((db.filter (fun r => r.library == lib)).filterMap (fun r => r.tags)).foldl
      (fun acc t => acc ++ t) []
  newTags.dedup.filter (fun t => existing.contains t)

/-- `SELECT DISTINCT library FROM reference` (membership is all any caller
uses, so the dedup order is immaterial). -/
def distinctLibraries (db : List RefRow) : List String :=
  (db.map (fun r => r.library)).dedup

/-- An entry of the `topic_overlaps` list. -/
structure OverlapEntry where
  new_file : String
  existing_library : String
  overlap_score : ℚ
  common_tags : List String
  deriving Repr, DecidableEq

/-- Inner loop of `_find_topic_overlaps` for one candidate: one entry per
existing library whose overlap score exceeds the 0.3 threshold. -/
def overlapsForFile (db : List RefRow) (f : CandFile) : List OverlapEntry :=
  (distinctLibraries db).filterMap (fun lib =>
    let score := calculateOverlapScore db f.content_preview f.tags lib
    if 3 / 10 < score then
      some { new_file := f.relative_path
             existing_library := lib
             overlap_score := score
             common_tags := findCommonTags db f.tags lib }
    else none)

/-- `_find_topic_overlaps` (the unused `library_name` argument is kept from
the signature in the source). -/
def findTopicOverlaps (db : List RefRow) (files : List CandFile)
    (_libraryName : String) : List OverlapEntry :=
  match files with
  | [] => []
  | f :: rest => overlapsForFile db f ++ findTopicOverlaps db rest _libraryName

/-! ### Version conflicts

`_find_version_conflicts` extracts a `major.minor` token via
`re.search` of `\b(\d+\.\d+)\b` over the title.  Because shrinking either greedy digit
run leaves a digit (a word character) right after it, the regex can only
match maximal digit runs, which the scanner below implements directly. -/

/-- The Python `\w` class (ASCII). -/
def isWordChar (c : Char) : Bool :=
  c.isAlpha || c.isDigit || c == '_'

/-- Try to read `\d+\.\d+\b` at the head of `l` (the `\b` before `l` is the
obligation of the caller). -/
def versionAt (l : List Char) : Option String :=
  let d1 := l.takeWhile Char.isDigit
  if d1.isEmpty then none
  else
    match l.dropWhile Char.isDigit with
    | '.' :: r2 =>
      let d2 := r2.takeWhile Char.isDigit
      if d2.isEmpty then none
      else
        match r2.dropWhile Char.isDigit with
        | [] => some ⟨d1 ++ '.' :: d2⟩
        | c :: _ => if isWordChar c then none else some ⟨d1 ++ '.' :: d2⟩
    | _ => none

/-- Leftmost match, carrying the previous character for the leading `\b`. -/
def searchVersionAux : Option Char → List Char → Option String
  | _, [] => none
  | prev, c :: rest =>
    let boundary := match prev with
      | none => true
      | some p => !isWordChar p
    match (if boundary then versionAt (c :: rest) else none) with
    | some v => some v
    | none => searchVersionAux (some c) rest

/-- `re.search` of `\b(\d+\.\d+)\b`: the matched version token, if any. -/
def searchVersion (s : String) : Option String :=
  searchVersionAux none s.data

/-- Decimal digits to a number. -/
def digitsToNat (l : List Char) : ℕ :=
  l.foldl (fun n c => 10 * n + (c.toNat - '0'.toNat)) 0

/-- `float(v)` for a `\d+.\d+` token, modelled exactly as a rational (the
binary-float rounding of such short decimals cannot change the comparisons
made of it here). -/
def versionToRat (v : String) : ℚ :=
  match splitChar '.' v with
  | [a, b] => (digitsToNat a.data : ℚ) + (digitsToNat b.data : ℚ) / ((10 : ℚ) ^ b.data.length)
  | _ => 0

/-- `_is_same_content_type`: ≥ 3 shared distinct words, or a shared fraction
above half of the smaller word set of the titles. -/
def isSameContentType (t1 t2 : String) : Bool :=
  let w1 := (pySplit (pyReplaceChar (pyLower t1) '-' ' ')).dedup
  let w2 := (pySplit (pyReplaceChar (pyLower t2) '-' ' ')).dedup
  let common := (w1.filter (fun w => w2.contains w)).length
  3 ≤ common ||
    (0 < common && decide ((1 : ℚ) / 2 < (common : ℚ) / (min w1.length w2.length : ℚ)))

/-- An entry of the `version_conflicts` list. -/
structure VersionConflict where
  new_file : String
  existing_title : String
  old_version : String
  new_version : String
  conflict_type : String
  deriving Repr, DecidableEq

/-- The `existing_versions` dict of `_find_version_conflicts`: titles of rows
whose `library` equals the target or contains it (`LIKE "%name%"`,
case-insensitively), mapped to their extracted version token. -/
def existingVersions (db : List RefRow) (lib : String) : List (String × String) :=
  (db.filter (fun r =>
      r.library == lib || strContains (pyLower r.library) (pyLower lib))).foldl
    (fun d r =>
      match searchVersion r.title with
      | some v => assocInsert d r.title v
      | none => d) []

/-- Conflicts one candidate contributes. -/
def conflictsForFile (ev : List (String × String)) (f : CandFile) :
    List VersionConflict :=
  match searchVersion f.title with
  | none => []
  | some nv =>
    ev.filterMap (fun p =>
      if isSameContentType f.title p.1 && decide (versionToRat p.2 < versionToRat nv) then
        some { new_file := f.relative_path
               existing_title := p.1
               old_version := p.2
               new_version := nv
               conflict_type := "version_upgrade" }
      else none)

/-- `_find_version_conflicts`. -/
def findVersionConflicts (db : List RefRow) (files : List CandFile)
    (lib : String) : List VersionConflict :=
  match files with
  | [] => []
  | f :: rest =>
    conflictsForFile (existingVersions db lib) f ++ findVersionConflicts db rest lib

/-- Shape of a `library_conflicts` entry; `_find_library_conflicts` has no
rule and always returns the empty list. -/
structure LibConflict where
  deriving Repr, DecidableEq

/-- `_find_library_conflicts` (the body only returns `conflicts = []`). -/
def findLibraryConflicts (_files : List CandFile) (_lib : String) :
    List LibConflict :=
  []

/-- The `excluded_files` set of `_calculate_unique_content`: names with an
exact duplicate, plus names whose topic-overlap score exceeds 0.7. -/
def excludedSet (exact : List DupEntry) (overlaps : List OverlapEntry) :
    List String :=
  (exact.map (fun d => d.new_file) ++
    (overlaps.filter (fun o => 7 / 10 < o.overlap_score)).map
      (fun o => o.new_file)).dedup

/-- The uniqueness report. -/
structure UniqueReport where
  total_files : ℕ
  excluded_files : ℕ
  unique_files : ℕ
  uniqueness_percentage : ℚ
  deriving Repr, DecidableEq

/-- `_calculate_unique_content` (its `analysis` argument contributes exactly
the `exact_duplicates` and `topic_overlaps` lists). -/
def calculateUniqueContent (files : List CandFile) (exact : List DupEntry)
    (overlaps : List OverlapEntry) : UniqueReport :=
  let excluded := excludedSet exact overlaps
  let uniq := files.filter (fun f => !excluded.contains f.relative_path)
  { total_files := files.length
    excluded_files := excluded.length
    unique_files := uniq.length
    uniqueness_percentage :=
      if files.isEmpty then 0
      else (uniq.length : ℚ) / (files.length : ℚ) * 100 }

/-- The analysis report `analyze_content` is meant to assemble. -/
structure Analysis where
  total_files : ℕ
  exact_duplicates : List DupEntry
  topic_overlaps : List OverlapEntry
  library_conflicts : List LibConflict
  version_conflicts : List VersionConflict
  new_unique_content : UniqueReport
  recommendations : List String
  library_name : String

/-- `analyze_content`: the four passes complete (each swallows its own
exceptions), but the dict literal building `analysis` evaluates
`self._calculate_unique_content(new_files, analysis)` for its
`new_unique_content` value while the local name `analysis` is still
unbound — the assignment only happens after the literal is fully evaluated —
so every call raises `NameError` (`UnboundLocalError`) instead of returning a
report. -/
def analyzeContent (db : List RefRow) (fs : FileSys) (libraryName : String) :
    Except PyErr Analysis :=
  let newFiles := getDocumentFiles fs
  let _exact := findExactDuplicates db newFiles
  let _overlaps := findTopicOverlaps db newFiles libraryName
  let _libConflicts := findLibraryConflicts newFiles libraryName
  let _verConflicts := findVersionConflicts db newFiles libraryName
  .error .nameError

/-! ## The full-text index (external collaborator)

The FTS5 engine of SQLite is outside the repository.  Its *ranking* is modelled
as an explicit parameter (`fts : rows → query → ranked rows`); its *query
grammar* is modelled from the spec. -/

/-- Modelled from the spec: characters "syntactically significant to the
underlying text-query grammar (e.g. `@`, `:`, parentheses, periods)" which
"otherwise cause a query-parse failure rather than a poor-but-valid match"
(spec §4.2); the modelled set is exactly the one
`maxwell-knowledge-base.py:_search_knowledge` strips. -/
def ftsSignificant (c : Char) : Bool :=
  c == '@' || c == ':' || c == '(' || c == ')' || c == '.'

/-- Modelled from the spec: a query parses iff it contains no significant
character; a failed parse surfaces as `sqlite3.OperationalError`. -/
def ftsParseOk (q : String) : Bool :=
  !q.data.any ftsSignificant

/-! ## Hybrid search

`skills/maxwell-knowledge/knowledge/maxwell-token-optimized.py` and the
archived `skills/maxwell-knowledge-v3-ARCHIVED/knowledge/maxwell-hybrid-search.py`.

A `patterns` / `reference` / legacy `knowledge` table and its row-aligned FTS
shadow table are modelled as one optional list of rows (`none` = table not
yet created; the spec keeps index rows 1:1 with record rows).  The JSON
`tags` column is modelled parsed, per the spec §3 invariant that tag sets are
always well-formed.  The `snippet(...)` selections are presentation-only and
not modelled. -/

/-- A row of the `patterns` (or legacy `knowledge`) table as the searches
read it. -/
structure PatternRow where
  id : String
  title : String
  content : String
  folder : String
  tags : List String
  deriving Repr, DecidableEq

/-- A row of the `reference` table as the searches read it. -/
structure RefDoc where
  id : String
  title : String
  content : String
  summary : String
  library : String
  folder_path : String
  doc_type : String
  tags : List String
  deriving Repr, DecidableEq

/-- The SQLite store the search modules open. -/
structure Store where
  patterns? : Option (List PatternRow)
  reference? : Option (List RefDoc)
  knowledge? : Option (List PatternRow)
  deriving Repr, DecidableEq

/-- The claim-relevant projection of the result dicts the search entry points
return (`solution` / key-point / code-example formatting and timing are
presentation fields, not modelled). -/
structure SearchResult where
  status : String
  source : Option String
  summary : Option String
  reasoning : String
  knowledge_type : String
  library : Option String
  deriving Repr, DecidableEq

/-- `MaxwellTokenOptimized._search_patterns`: `try` around the FTS query;
`except sqlite3.OperationalError: return []` covers both a missing
`patterns_fts`/`patterns` table and a query-parse failure. -/
def tokenOptSearchPatterns (fts : List PatternRow → String → List PatternRow)
    (s : Store) (q : String) (limit : ℕ) : List PatternRow :=
  match s.patterns? with
  | some rows => if ftsParseOk q then (fts rows q).take limit else []
  | none => []

/-- `MaxwellTokenOptimized._search_reference`: same shape over `reference`. -/
def tokenOptSearchReference (ftsR : List RefDoc → String → List RefDoc)
    (s : Store) (q : String) (limit : ℕ) : List RefDoc :=
  match s.reference? with
  | some rows => if ftsParseOk q then (ftsR rows q).take limit else []
  | none => []

/-- `MaxwellTokenOptimized._create_summary`. -/
def createSummary (best : PatternRow) : String :=
  let joined := pyLower (pyJoin " " best.tags)
  let top3 := pyJoin ", " (best.tags.take 3)
  if strContains joined "sql" then
    "SQL " ++ best.title ++ ": Database query pattern for " ++ top3
  else if strContains joined "migration" then
    "Migration: " ++ best.title ++ " - Steps for " ++ top3
  else if strContains joined "performance" then
    "Performance: " ++ best.title ++ " - Optimizes " ++ top3
  else
    "Pattern: " ++ best.title ++ " - Covers " ++ top3

/-- The `status: no_knowledge_found` dict of `MaxwellTokenOptimized.search`. -/
def tokenOptNoKnowledge : SearchResult :=
  { status := "no_knowledge_found"
    source := none
    summary := none
    reasoning := "No relevant information found in knowledge base"
    knowledge_type := "none"
    library := none }

/-- Steps 2–3 of `MaxwellTokenOptimized.search`: the reference stage, reached
whenever the pattern branch did not return.  Note the source has reference
branches only for `detail_level` `"summary"` and `"full"`; any other level
falls through to `no_knowledge_found` even on a reference hit. -/
def tokenOptReferenceStage (ftsR : List RefDoc → String → List RefDoc)
    (s : Store) (q : String) (detailLevel : String) : SearchResult :=
  match tokenOptSearchReference ftsR s q 3 with
  | best :: _ =>
    if detailLevel == "summary" || detailLevel == "full" then
      { status := "reference_found"
        source := some best.title
        summary := some best.summary
        reasoning := "Found " ++ best.library ++ " reference documentation"
        knowledge_type := "reference"
        library := some best.library }
    else tokenOptNoKnowledge
  | [] => tokenOptNoKnowledge

/-- `MaxwellTokenOptimized.search`: pattern stage first (limit 3), with one
return per recognised `detail_level`; an unrecognised level matches no branch
and falls through to the reference stage even though patterns matched. -/
def tokenOptSearch (fts : List PatternRow → String → List PatternRow)
    (ftsR : List RefDoc → String → List RefDoc) (s : Store) (q : String)
    (detailLevel : String) : SearchResult :=
  match tokenOptSearchPatterns fts s q 3 with
  | best :: _ =>
    if detailLevel == "summary" then
      { status := "pattern_found"
        source := some best.title
        summary := some (createSummary best)
        reasoning := "Found pattern in first-line defense"
        knowledge_type := "pattern"
        library := none }
    else if detailLevel == "details" then
      { status := "pattern_found"
        source := some best.title
        summary := some (createSummary best)
        reasoning := "Found pattern with key points"
        knowledge_type := "pattern"
        library := none }
    else if detailLevel == "full" then
      { status := "pattern_found"
        source := some best.title
        summary := some (createSummary best)
        reasoning := "Complete pattern details provided"
        knowledge_type := "pattern"
        library := none }
    else tokenOptReferenceStage ftsR s q detailLevel
  | [] => tokenOptReferenceStage ftsR s q detailLevel

/-- The legacy fallback of the archived `_search_patterns`: the `except
sqlite3.OperationalError` branch queries the v1 `knowledge` /
`knowledge_fts` tables with the same raw query and has no handler of its
own, so a missing legacy table or a second parse failure propagates. -/
def archivedLegacyPatterns (fts : List PatternRow → String → List PatternRow)
    (s : Store) (q : String) (limit : ℕ) : Except PyErr (List PatternRow) :=
  match s.knowledge? with
  | some rows =>
    if ftsParseOk q then .ok ((fts rows q).take limit)
    else .error .operationalError
  | none => .error .operationalError

/-- `MaxwellHybridKnowledgeBase._search_patterns`: the FTS query over
`patterns`, falling back to the legacy tables on any
`sqlite3.OperationalError` (missing table or query-parse failure). -/
def archivedSearchPatterns (fts : List PatternRow → String → List PatternRow)
    (s : Store) (q : String) (limit : ℕ) : Except PyErr (List PatternRow) :=
  match s.patterns? with
  | some rows =>
    if ftsParseOk q then .ok ((fts rows q).take limit)
    else archivedLegacyPatterns fts s q limit
  | none => archivedLegacyPatterns fts s q limit

/-- `MaxwellHybridKnowledgeBase._search_reference`: here the `except` returns
`[]`, covering a missing table and a parse failure alike. -/
def archivedSearchReference (ftsR : List RefDoc → String → List RefDoc)
    (s : Store) (q : String) (limit : ℕ) : List RefDoc :=
  match s.reference? with
  | some rows => if ftsParseOk q then (ftsR rows q).take limit else []
  | none => []

/-- `MaxwellHybridKnowledgeBase.search`: patterns, then reference, then
`no_knowledge_found`; an exception out of `_search_patterns` propagates. -/
def archivedSearch (fts : List PatternRow → String → List PatternRow)
    (ftsR : List RefDoc → String → List RefDoc) (s : Store) (q : String)
    (limit : ℕ) : Except PyErr SearchResult :=
  match archivedSearchPatterns fts s q limit with
  | .error e => .error e
  | .ok (best :: _) =>
    .ok { status := "pattern_found"
          source := some best.title
          summary := none
          reasoning := "Found relevant solution in Maxwell patterns database"
          knowledge_type := "pattern"
          library := none }
  | .ok [] =>
    match archivedSearchReference ftsR s q limit with
    | best :: _ =>
      .ok { status := "reference_found"
            source := some best.title
            summary := none
            reasoning := "Found comprehensive reference in " ++ best.library ++
              " documentation"
            knowledge_type := "reference"
            library := some best.library }
    | [] =>
      .ok { status := "no_knowledge_found"
            source := none
            summary := none
            reasoning := "No relevant information found in Maxwell knowledge base"
            knowledge_type := "none"
            library := none }

/-! ## Knowledge base (`skills/maxwell-knowledge/knowledge/maxwell-knowledge-base.py`)

`_initialize_database` always creates the `knowledge` / `knowledge_fts`
tables, so the table itself is a plain list here.  `hashlib.md5` (the cache
key) is an external function and is passed as a parameter; the wall-clock
search time likewise. -/

/-- A row of the v1 `knowledge` table (tags JSON modelled parsed;
`json.loads(row[4]) if row[4] else []`). -/
structure KRow where
  id : String
  title : String
  content : String
  folder : String
  tags : List String
  deriving Repr, DecidableEq

/-- The sanitisation of `_search_knowledge`:
each of `@`, `:`, `(`, `)` and `.` replaced by a space, in that order. -/
def cleanQuery (q : String) : String :=
  pyReplaceChar (pyReplaceChar (pyReplaceChar (pyReplaceChar
    (pyReplaceChar q '@' ' ') ':' ' ') '(' ' ') ')' ' ') '.' ' '

/-- The character-level effect of the `.replace` chain of `_search_knowledge`. -/
def cleanChar (c : Char) : Char :=
  if ftsSignificant c then ' ' else c

/-- `_search_knowledge`: no `try` of its own — a query-parse failure would
propagate — but the query is sanitised first. -/
def searchKnowledge (fts : List KRow → String → List KRow) (db : List KRow)
    (q : String) (limit : ℕ) : Except PyErr (List KRow) :=
  let cq := cleanQuery q
  if ftsParseOk cq then .ok ((fts db cq).take limit)
  else .error .operationalError

/-- The canned answer of `_reason_about_problem` for compilation errors. -/
def reasonCompilation : String :=
  "When encountering compilation errors:\n\n1. Check syntax and import statements\n2. Verify property declarations\n3. Look for type mismatches\n4. Check for deprecated APIs\n5. Use Xcode\x27s Fix-It suggestions\n\nCommon Swift compilation errors:\n- \"Cannot find in scope\" → Check imports and declarations\n- \"Type cannot conform\" → Implement protocol requirements\n- \"Unexpectedly found nil\" → Check optional initialization"

/-- The canned answer for memory issues. -/
def reasonMemory : String :=
  "For memory-related issues in iOS/macOS:\n\n1. Check for strong reference cycles (delegates, closures)\n2. Use weak references where appropriate\n3. Verify object lifecycles\n4. Monitor memory usage with Instruments\n5. Use @StateObject vs @ObservedObject correctly\n\nSwiftUI-specific:\n- @StateObject: Creates and owns the object\n- @ObservedObject: Only observes, doesn\x27t own\n- @EnvironmentObject: For shared state across views"

/-- The canned answer for TCA issues. -/
def reasonTca : String :=
  "For TCA-related issues:\n\n1. Check TCA version compatibility\n2. Verify @ObservableState usage\n3. Review dependency injection\n4. Check action handling\n5. Test state mutations\n\nCommon TCA patterns:\n- Use Scope() for child features\n- @Shared for shared state between features\n- @ObservableState for local state\n- Proper action handling in reduce()"

/-- The canned general answer. -/
def reasonGeneral : String :=
  "For general development issues:\n\n1. Identify the specific problem symptoms\n2. Break down the issue into smaller components\n3. Research current best practices\n4. Test solutions incrementally\n5. Consider platform-specific constraints\n\nDebugging approach:\n- Start with minimal reproduction\n- Add logging to identify failure points\n- Use debugger breakpoints strategically\n- Test edge cases separately"

/-- `_reason_about_problem`. -/
def reasonAboutProblem (q : String) : String :=
  let ql := pyLower q
  if strContains ql "error" || strContains ql "compilation" then reasonCompilation
  else if strContains ql "memory" || strContains ql "leak" then reasonMemory
  else if strContains ql "tca" || strContains ql "reducer" then reasonTca
  else reasonGeneral

/-- The result dict of `solve_developer_problem`.  A cache-hit reply copies
`status`, `solution`, `source`, `response_time` and `reasoning` and carries
no `tags` key (`tags := none`). -/
structure SolveResult where
  status : String
  solution : String
  source : String
  response_time : ℚ
  reasoning : String
  tags : Option (List String)
  deriving Repr, DecidableEq

/-- The bounded query cache: a Python dict in insertion order. -/
abbrev Cache := List (String × SolveResult)

/-- `self.cache_limit = 50`. -/
def cacheLimit : ℕ := 50

/-- `_cache_result`: at capacity, `next(iter(self.cache))` names the
oldest-inserted key and it is deleted (with unique keys that is the head
entry); then `self.cache[key] = result`. -/
def cacheResult (c : Cache) (k : String) (r : SolveResult) : Cache :=
  let c' := if cacheLimit ≤ c.length then c.tail else c
  assocInsert c' k r

/-- `solve_developer_problem`, with `md5Hex` standing for the
`hashlib.md5(query).hexdigest()` of `_get_cache_key` and `searchTime` for the
measured elapsed time of the knowledge search. -/
def solveDeveloperProblem (md5Hex : String → String)
    (fts : List KRow → String → List KRow) (db : List KRow) (searchTime : ℚ)
    (cache : Cache) (q : String) : Except PyErr (SolveResult × Cache) :=
  let key := md5Hex q
  match dictGet cache key with
  | some cached =>
    .ok ({ status := cached.status
           solution := cached.solution
           source := cached.source
           response_time := cached.response_time
           reasoning := cached.reasoning
           tags := none }, cache)
  | none =>
    match searchKnowledge fts db q 5 with
    | .error e => .error e
    | .ok kbResults =>
      let result : SolveResult :=
        match kbResults with
        | best :: _ =>
          { status := "knowledge_found"
            solution := best.content
            source := best.title
            response_time := searchTime
            reasoning := "Found relevant solution in knowledge base"
            tags := some best.tags }
        | [] =>
          { status := "reasoning_required"
            solution := reasonAboutProblem q
            source := "general_reasoning"
            response_time := searchTime
            reasoning := "Applied general development principles and best practices"
            tags := none }
      .ok (result, cacheResult cache key result)

/-! ## Reference import
(`skills/maxwell-knowledge-v3-ARCHIVED/knowledge/migrate-database.py`)

`import_reference_documentation` derives the primary key of each record from
the builtin Python `hash` of the relative path.  That hash is salted per
process (`PYTHONHASHSEED`), so it is modelled as an explicit parameter
`pyHash : String → ℤ`: one function per process invocation. -/

/-- A row of the `reference` table as the import writes it. -/
structure RefTableRow where
  id : String
  title : String
  content : String
  folder_path : String
  doc_type : String
  library : String
  file_path : String
  word_count : ℕ
  summary : String
  tags : List String
  deriving Repr, DecidableEq

/-- `_classify_document_type`. -/
def classifyDocumentType (folderPath content : String) : String :=
  let fl := pyLower folderPath
  if strContains fl "article" || strContains fl "articles" then "article"
  else if strContains fl "extension" || strContains fl "extensions" then "extension"
  else if strContains fl "api" || strContains fl "reference" then "api"
  else if strContains fl "tutorial" || strContains fl "guide" then "tutorial"
  else if strStarts content "#" &&
      (["method", "function", "property", "class"].any
        (fun w => strContains (pyLower (pyTake 200 content)) w)) then "api"
  else "documentation"

/-- The line scan of `_generate_summary`: returns `(title, first_paragraph)`
with the Python empty-string falsiness (an unset value is `""`); the loop
breaks as soon as a paragraph line is found. -/
def genSummaryLoop : List String → String → String × String
  | [], t => (t, "")
  | ln :: rest, t =>
    let l := pyStrip ln
    if strStarts l "# " && t == "" then genSummaryLoop rest (pyStrip (strDrop l 2))
    else if l != "" && !strStarts l "#" && 20 < l.data.length then
      (t, if 100 < l.data.length then pyTake 100 l ++ "..." else l)
    else genSummaryLoop rest t

/-- `_generate_summary`. -/
def generateSummary (content : String) : String :=
  match genSummaryLoop (pyLines content) "" with
  | (t, p) =>
    if t != "" && p != "" then t ++ ": " ++ p
    else if t != "" then t
    else if p != "" then p
    else if 80 < content.data.length then pyTake 80 content ++ "..." else content

/-- The `_extract_title` of the migrator: first `"# "` heading of the first 10
lines, else the first line (truncated at 50). -/
def migrateExtractTitle (content : String) : String :=
  match ((pyLines content).take 10).findSome? (fun ln =>
      let l := pyStrip ln
      if strStarts l "# " then some (pyStrip (strDrop l 2)) else none) with
  | some t => t
  | none =>
    let l0 := (pyLines content).headD ""
    if 50 < l0.data.length then pyTake 50 l0 ++ "..." else l0

/-- The `_extract_tags(content, library_name, doc_type)` of the migrator; the
source returns `list(set(tags))`, whose iteration order no caller observes,
modelled by `dedup` of the built list. -/
def migrateExtractTags (content lib docType : String) : List String :=
  let cl := pyLower content
  ([pyLower lib, pyLower docType]
    ++ (if strContains cl "sqlite" then ["sqlite"] else [])
    ++ (if strContains cl "swift" then ["swift"] else [])
    ++ (if strContains cl "database" then ["database"] else [])
    ++ (if strContains cl "query" then ["querying"] else [])
    ++ (if strContains cl "migration" then ["migration"] else [])
    ++ (if strContains cl "sync" then ["synchronization"] else [])
    ++ (if strContains cl "cloudkit" then ["cloudkit"] else [])
    ++ (if strContains cl "grdb" then ["grdb"] else [])
    ++ (if strContains cl "delete" then ["deletion"] else [])
    ++ (if strContains cl "insert" then ["insertion"] else [])
    ++ (if strContains cl "update" then ["update"] else [])
    ++ (if strContains cl "fetch" || strContains cl "select" then ["fetching"]
        else [])).dedup

/-- `str(relative_path.parent) if relative_path.parent != Path(".") else "root"`. -/
def parentOf (relPath : String) : String :=
  let parts := splitChar '/' relPath
  if parts.length ≤ 1 then "root" else pyJoin "/" parts.dropLast

/-- `doc_id = f"{library_name}_{md_file.stem}_{hash(str(relative_path)) % 10000}"`. -/
def docIdFor (pyHash : String → ℤ) (lib : String) (f : SrcFile) : String :=
  lib ++ "_" ++ f.stem ++ "_" ++ toString (pyHash f.relPath % 10000)

/-- The row one imported file produces. -/
def mkRefTableRow (pyHash : String → ℤ) (lib : String) (f : SrcFile)
    (content : String) : RefTableRow :=
  let folderPath := parentOf f.relPath
  let docType := classifyDocumentType folderPath content
  { id := docIdFor pyHash lib f
    title := migrateExtractTitle content
    content := content
    folder_path := folderPath
    doc_type := docType
    library := lib
    file_path := f.relPath
    word_count := (pySplit content).length
    summary := generateSummary content
    tags := migrateExtractTags content lib docType }

/-- SQLite `INSERT OR REPLACE` on a table with a primary key: the
conflicting row is deleted and the new row inserted. -/
def upsertById {α : Type} (key : α → String) (db : List α) (x : α) : List α :=
  db.filter (fun r => !(key r == key x)) ++ [x]

/-- A batch of `INSERT OR REPLACE` writes. -/
def upsertAll {α : Type} (key : α → String) (db : List α) (xs : List α) :
    List α :=
  xs.foldl (fun d x => upsertById key d x) db

/-- The import loop: unreadable files are logged and skipped, every other
file is upserted under its derived id. -/
def importRefLoop (pyHash : String → ℤ) (lib : String) :
    List SrcFile → List RefTableRow → List RefTableRow
  | [], db => db
  | f :: rest, db =>
    match f.content? with
    | none => importRefLoop pyHash lib rest db
    | some content =>
      importRefLoop pyHash lib rest
        (upsertById RefTableRow.id db (mkRefTableRow pyHash lib f content))

/-- `import_reference_documentation`: `False` (and no change) when the
directory is missing, otherwise the imported table and `True`.  The
row-aligned `reference_fts` insert is covered by the 1:1 index model. -/
def importReferenceDocumentation (pyHash : String → ℤ) (fs : FileSys)
    (lib : String) (db : List RefTableRow) : List RefTableRow × Bool :=
  if fs.dirExists then (importRefLoop pyHash lib fs.mdFiles db, true)
  else (db, false)

/-! ## Pattern synthesis
(`skills/maxwell-knowledge/knowledge/synthesize-patterns.py` and
`synthesize-composable-patterns.py`)

Each `_create_*_pattern` builds a dict whose `id` is
`f"<subtype>-{hash(title) % 10000}"` — again the salted builtin `hash`,
passed as `pyHash`.  The problem/solution/indicator fields extracted with
regular expressions feed only the formatted markdown body; no claim touches
them, so the record is modelled by its claim-relevant projection. -/

/-- A synthesized pattern (projection: id, title, subtype, folder, tags and
the content it was built from). -/
structure SynthPattern where
  id : String
  title : String
  pattern_type : String
  folder : String
  tags : List String
  content : String
  deriving Repr, DecidableEq

/-- `SQLiteDataPatternSynthesizer._create_performance_pattern`. -/
def createPerformancePattern (pyHash : String → ℤ)
    (title content _folderPath : String) : SynthPattern :=
  { id := "sqlitedata-perf-" ++ toString (pyHash title % 10000)
    title := "Performance Pattern: " ++ title
    pattern_type := "performance"
    folder := "SQLiteData/Performance"
    tags := ["sqlitedata", "performance", "optimization", "database", "swift"]
    content := content }

/-- `ComposableArchitecturePatternSynthesizer._create_conceptual_pattern`. -/
def createConceptualPattern (pyHash : String → ℤ)
    (title content _folderPath : String) : SynthPattern :=
  let tl := pyLower title
  let mainConcept :=
    if strContains tl "state" then "State Management"
    else if strContains tl "composition" then "Feature Composition"
    else if strContains tl "testing" then "Testing Strategy"
    else if strContains tl "navigation" then "Navigation Pattern"
    else "TCA Concept"
  { id := "tca-concept-" ++ toString (pyHash title % 10000)
    title := "TCA Concept: " ++ title
    pattern_type := "tca_concept"
    folder := "ComposableArchitecture/" ++ ⟨mainConcept.data.filter (fun c => c != ' ')⟩
    tags := ["tca", "concept", "architecture", "composable-architecture",
             pyReplaceChar (pyLower mainConcept) ' ' '-']
    content := content }

/-- `save_synthesized_patterns`: one `INSERT OR REPLACE INTO patterns` per
pattern.  The `patterns` table is only ever created by `CREATE TABLE patterns
AS SELECT * FROM knowledge` (migrate-database.py:29), which carries over no
primary key and no unique constraint, and no unique index on `patterns` is
created anywhere else; with no conflict target, `OR REPLACE` never fires and
each insert is a plain append (the stored row — formatted content, summary,
word count — is modelled by the pattern record itself). -/
def saveSynthesizedPatterns (db : List SynthPattern)
    (patterns : List SynthPattern) : List SynthPattern :=
  patterns.foldl (fun d p => d ++ [p]) db

/-! ## Concrete instances used by the claim theorems -/

/-- An existing reference row with content `"a b"`. -/
def exRefRow : RefRow :=
  { title := "Alpha", content := "a b", folder_path := "root",
    library := "LibA", tags := none }

/-- A candidate file whose content equals that of `exRefRow` after whitespace
normalisation. -/
def exCandFile : CandFile :=
  mkCand "/docs/x.md" "x.md" "a  b\n"

/-- A missing documentation directory. -/
def exMissingDir : FileSys :=
  { dirExists := false
    mdFiles := [{ path := "/docs/a.md", relPath := "a.md", stem := "a",
                  content? := some "# A\nSome text" }] }

/-- A freshly-created, empty SQLite file: no table exists yet. -/
def emptyStore : Store :=
  { patterns? := none, reference? := none, knowledge? := none }

/-- A pattern row matching any query under the identity ranking. -/
def exPatternRow : PatternRow :=
  { id := "p1", title := "Scope child features", content := "Use Scope",
    folder := "tca", tags := ["tca"] }

/-- A store whose pattern table holds `exPatternRow` and whose reference
table exists but is empty. -/
def exPatternStore : Store :=
  { patterns? := some [exPatternRow], reference? := some [], knowledge? := none }

/-- A fully-migrated store (patterns, reference and legacy tables present). -/
def exLegacyStore : Store :=
  { patterns? := some [exPatternRow], reference? := some [],
    knowledge? := some [exPatternRow] }

/-- The builtin `hash` of one process invocation (`PYTHONHASHSEED` salt A). -/
def exHashA : String → ℤ := fun _ => 1234

/-- The builtin `hash` of a second process invocation (salt B). -/
def exHashB : String → ℤ := fun _ => 5678

/-- A one-file documentation directory. -/
def exOneFileDir : FileSys :=
  { dirExists := true
    mdFiles := [{ path := "/docs/a.md", relPath := "a.md", stem := "a",
                  content? := some "# A\nSome text about queries" }] }

/-- A reference table with one document of library `LibA`. -/
def exOverlapDb : List RefRow :=
  [{ title := "Doc", content := "swift database tips", folder_path := "root",
     library := "LibA", tags := some ["swift"] }]

/-- A concrete solve result (cache payload for the cache-capacity witness). -/
def exSolveResult : SolveResult :=
  { status := "knowledge_found", solution := "sol", source := "src",
    response_time := 0, reasoning := "r", tags := none }

/-! ## Helper lemmas -/

section UpsertLemmas

variable {α : Type} (key : α → String)

theorem saveSynthesizedPatterns_length (ps : List SynthPattern)
    (db : List SynthPattern) :
    (saveSynthesizedPatterns db ps).length = db.length + ps.length := by
  induction ps generalizing db with
  | nil => simp [saveSynthesizedPatterns]
  | cons p rest ih =>
    have := ih (db ++ [p])
    simp only [saveSynthesizedPatterns, List.foldl_cons] at this ⊢
    simp only [this, List.length_append, List.length_cons, List.length_nil,
      List.length_singleton]
    omega

theorem importRefLoop_eq_upsertAll (pyHash : String → ℤ) (lib : String)
    (files : List SrcFile) (db : List RefTableRow) :
    importRefLoop pyHash lib files db =
      upsertAll RefTableRow.id db
        (files.filterMap (fun f => f.content?.map (mkRefTableRow pyHash lib f))) := by
  induction files generalizing db with
  | nil => rfl
  | cons f rest ih =>
    cases hc : f.content? with
    | none => simp [importRefLoop, hc, upsertAll, List.filterMap_cons, ih]
    | some c => simp [importRefLoop, hc, upsertAll, List.filterMap_cons, ih]

theorem upsertById_ids_mem (db : List α) (x : α) (k : String)
    (h : k ∈ db.map key) : k ∈ (upsertById key db x).map key := by
  by_cases hk : k = key x
  · subst hk; simp [upsertById]
  · rcases List.mem_map.1 h with ⟨r, hr, hrk⟩
    refine List.mem_map.2 ⟨r, List.mem_append_left _ ?_, hrk⟩
    exact List.mem_filter.2 ⟨hr, by simp [hrk, hk]⟩

theorem upsertById_self_mem (db : List α) (x : α) :
    key x ∈ (upsertById key db x).map key := by
  simp [upsertById]

theorem filter_ne_eq_self (db : List α) (k : String) (hk : k ∉ db.map key) :
    db.filter (fun r => !(key r == k)) = db := by
  apply List.filter_eq_self.2
  intro r hr
  simp only [Bool.not_eq_true', beq_eq_false_iff_ne, ne_eq]
  intro hrk
  exact hk (List.mem_map.2 ⟨r, hr, hrk⟩)

theorem filter_ne_length_mem (db : List α) (k : String)
    (hmem : k ∈ db.map key) (hnd : (db.map key).Nodup) :
    (db.filter (fun r => !(key r == k))).length + 1 = db.length := by
  induction db with
  | nil => simp at hmem
  | cons r rest ih =>
    simp only [List.map_cons, List.nodup_cons] at hnd
    by_cases hr : key r = k
    · have hk : k ∉ rest.map key := hr ▸ hnd.1
      rw [List.filter_cons_of_neg (by simp [hr]), filter_ne_eq_self key rest k hk]
      simp
    · have hmem' : k ∈ rest.map key := by
        rcases List.mem_map.1 hmem with ⟨a, ha, hak⟩
        rcases List.mem_cons.1 ha with ha | ha
        · exact absurd (ha ▸ hak) hr
        · exact List.mem_map.2 ⟨a, ha, hak⟩
      rw [List.filter_cons_of_pos (by simp [hr])]
      have := ih hmem' hnd.2
      simp only [List.length_cons]
      omega

theorem upsertById_length_mem (db : List α) (x : α)
    (hmem : key x ∈ db.map key) (hnd : (db.map key).Nodup) :
    (upsertById key db x).length = db.length := by
  unfold upsertById
  rw [List.length_append, List.length_singleton]
  exact filter_ne_length_mem key db (key x) hmem hnd

theorem upsertById_length_notMem (db : List α) (x : α)
    (hmem : key x ∉ db.map key) :
    (upsertById key db x).length = db.length + 1 := by
  unfold upsertById
  rw [List.length_append, List.length_singleton, filter_ne_eq_self key db (key x) hmem]

theorem upsertById_ids_nodup (db : List α) (x : α)
    (hnd : (db.map key).Nodup) : ((upsertById key db x).map key).Nodup := by
  unfold upsertById
  rw [List.map_append]
  refine List.nodup_append.2 ⟨?_, List.nodup_singleton _, ?_⟩
  · exact hnd.sublist ((List.filter_sublist db).map key)
  · intro k hk
    rcases List.mem_map.1 hk with ⟨r, hr, hrk⟩
    have := (List.mem_filter.1 hr).2
    simp only [Bool.not_eq_true', beq_eq_false_iff_ne, ne_eq] at this
    simp only [List.map_cons, List.map_nil, List.mem_singleton]
    exact fun he => this (hrk.trans he)

theorem upsertAll_ids_mono (xs : List α) (db : List α) (k : String)
    (h : k ∈ db.map key) : k ∈ (upsertAll key db xs).map key := by
  induction xs generalizing db with
  | nil => exact h
  | cons x rest ih => exact ih _ (upsertById_ids_mem key db x k h)

theorem upsertAll_present (xs : List α) (db : List α) :
    ∀ x ∈ xs, key x ∈ (upsertAll key db xs).map key := by
  induction xs generalizing db with
  | nil => intro x hx; simp at hx
  | cons y rest ih =>
    intro x hx
    rcases List.mem_cons.1 hx with hx | hx
    · subst hx
      exact upsertAll_ids_mono key rest _ _ (upsertById_self_mem key db x)
    · exact ih _ x hx

theorem upsertAll_nodup (xs : List α) (db : List α)
    (hnd : (db.map key).Nodup) : ((upsertAll key db xs).map key).Nodup := by
  induction xs generalizing db with
  | nil => exact hnd
  | cons x rest ih => exact ih _ (upsertById_ids_nodup key db x hnd)

theorem upsertAll_length_stable (xs : List α) (db : List α)
    (hnd : (db.map key).Nodup)
    (hpres : ∀ x ∈ xs, key x ∈ db.map key) :
    (upsertAll key db xs).length = db.length := by
  induction xs generalizing db with
  | nil => rfl
  | cons x rest ih =>
    have hx := hpres x (by simp)
    have h1 : (upsertById key db x).length = db.length :=
      upsertById_length_mem key db x hx hnd
    have h2 : ((upsertById key db x).map key).Nodup :=
      upsertById_ids_nodup key db x hnd
    have h3 : ∀ y ∈ rest, key y ∈ (upsertById key db x).map key := fun y hy =>
      upsertById_ids_mem key db x (key y) (hpres y (by simp [hy]))
    calc (upsertAll key (upsertById key db x) rest).length
        = (upsertById key db x).length := ih _ h2 h3
      _ = db.length := h1

end UpsertLemmas

theorem assocInsert_length_le {α β : Type} [BEq α] (d : List (α × β)) (k : α)
    (v : β) : (assocInsert d k v).length ≤ d.length + 1 := by
  unfold assocInsert
  by_cases h : d.any (fun p => p.1 == k)
  · simp [h]
  · simp [h]

section DictLemmas

variable {α β : Type} [BEq α] [LawfulBEq α]

theorem dictGet_map_update (d : List (α × β)) (k : α) (v : β)
    (h : d.any (fun p => p.1 == k) = true) :
    dictGet (d.map (fun p => if p.1 == k then (k, v) else p)) k = some v := by
  induction d with
  | nil => simp at h
  | cons p rest ih =>
    by_cases hp : p.1 == k
    · rw [List.map_cons, if_pos hp]
      simp [dictGet]
    · rw [List.map_cons, if_neg hp]
      have h' : rest.any (fun p => p.1 == k) = true := by
        simp only [List.any_cons, hp, Bool.false_or] at h
        exact h
      simpa [dictGet, hp] using ih h'

theorem dictGet_append_new (d : List (α × β)) (k : α) (v : β)
    (h : d.any (fun p => p.1 == k) = false) :
    dictGet (d ++ [(k, v)]) k = some v := by
  induction d with
  | nil => simp [dictGet]
  | cons p rest ih =>
    simp only [List.any_cons, Bool.or_eq_false_iff] at h
    simpa [dictGet, h.1] using ih h.2

theorem dictGet_assocInsert (d : List (α × β)) (k : α) (v : β) :
    dictGet (assocInsert d k v) k = some v := by
  unfold assocInsert
  by_cases h : d.any (fun p => p.1 == k)
  · rw [if_pos h]; exact dictGet_map_update d k v h
  · rw [if_neg h]; exact dictGet_append_new d k v (Bool.eq_false_iff.2 h)

end DictLemmas

theorem cleanQuery_data (q : String) :
    (cleanQuery q).data = q.data.map cleanChar := by
  simp only [cleanQuery, pyReplaceChar, List.map_map]
  apply List.map_congr_left
  intro c _
  simp only [Function.comp_apply, cleanChar, ftsSignificant]
  by_cases h1 : c = '@'
  · subst h1; rfl
  · by_cases h2 : c = ':'
    · subst h2; rfl
    · by_cases h3 : c = '('
      · subst h3; rfl
      · by_cases h4 : c = ')'
        · subst h4; rfl
        · by_cases h5 : c = '.'
          · subst h5; rfl
          · simp [h1, h2, h3, h4, h5]

theorem ftsSignificant_cleanChar (c : Char) :
    ftsSignificant (cleanChar c) = false := by
  by_cases h : ftsSignificant c
  · rw [cleanChar, if_pos h]
    rfl
  · rw [cleanChar, if_neg h]
    exact Bool.eq_false_iff.2 h

theorem ftsParseOk_cleanQuery (q : String) : ftsParseOk (cleanQuery q) = true := by
  unfold ftsParseOk
  rw [cleanQuery_data, List.any_map]
  simp only [Bool.not_eq_true']
  apply List.any_eq_false.2
  intro c _
  simp [ftsSignificant_cleanChar]

theorem searchKnowledge_ok (fts : List KRow → String → List KRow)
    (db : List KRow) (q : String) (limit : ℕ) :
    searchKnowledge fts db q limit = .ok ((fts db (cleanQuery q)).take limit) := by
  unfold searchKnowledge
  simp [ftsParseOk_cleanQuery]

/-- Filtering by the negation keeps exactly the length of the complement. -/
theorem length_filter_not_eq {γ : Type} (p : γ → Bool) (l : List γ) :
    (l.filter (fun x => !p x)).length = l.length - (l.filter p).length := by
  induction l with
  | nil => rfl
  | cons a t ih =>
    have hle := List.length_filter_le p t
    cases h : p a <;> simp [List.filter_cons, h, ih] <;> omega

theorem sum_map_div (l : List ℚ) (c : ℚ) :
    (l.map (fun x => x / c)).sum = l.sum / c := by
  induction l with
  | nil => simp
  | cons a t ih => simp [ih, add_div]

theorem dictGet_cacheResult (c : Cache) (k : String) (r : SolveResult) :
    dictGet (cacheResult c k r) k = some r :=
  dictGet_assocInsert _ k r

theorem findTopicOverlaps_score (db : List RefRow) (files : List CandFile)
    (n : String) :
    ∀ e ∈ findTopicOverlaps db files n, 3 / 10 < e.overlap_score := by
  induction files with
  | nil =>
    intro e he
    simp [findTopicOverlaps] at he
  | cons f rest ih =>
    intro e he
    simp only [findTopicOverlaps] at he
    rcases List.mem_append.1 he with he | he
    · rcases List.mem_filterMap.1 he with ⟨lib, _hlib, hsome⟩
      by_cases hsc : (3 : ℚ) / 10 <
          calculateOverlapScore db f.content_preview f.tags lib
      · rw [if_pos hsc] at hsome
        cases hsome
        exact hsc
      · rw [if_neg hsc] at hsome
        exact absurd hsome (by simp)
    · exact ih e he

theorem findTopicOverlaps_mem (db : List RefRow) (files : List CandFile)
    (n : String) (f : CandFile) (lib : String) (hf : f ∈ files)
    (hlib : lib ∈ distinctLibraries db)
    (hsc : (3 : ℚ) / 10 < calculateOverlapScore db f.content_preview f.tags lib) :
    ({ new_file := f.relative_path, existing_library := lib,
       overlap_score := calculateOverlapScore db f.content_preview f.tags lib,
       common_tags := findCommonTags db f.tags lib } : OverlapEntry) ∈
      findTopicOverlaps db files n := by
  induction files with
  | nil => simp at hf
  | cons g rest ih =>
    simp only [findTopicOverlaps]
    rcases List.mem_cons.1 hf with hf' | hf'
    · subst hf'
      apply List.mem_append_left
      unfold overlapsForFile
      exact List.mem_filterMap.2 ⟨lib, hlib, by rw [if_pos hsc]⟩
    · exact List.mem_append_right _ (ih hf')

theorem calculateOverlapScore_eq (db : List RefRow) (content : String)
    (tags : List String) (lib : String) (h : libSamples db lib ≠ []) :
    calculateOverlapScore db content tags lib =
      2 / 5 * ((interCount tags (libTagSample db lib) : ℚ) / (tags.length : ℚ)) +
      3 / 5 * (((libSamples db lib).map (fun s =>
          (interCount (pySplit (pyLower content)) (pySplit (pyLower s)) : ℚ) /
            ((pySplit content).length : ℚ))).sum /
        ((libSamples db lib).length : ℚ)) := by
  have hN : (libSamples db lib).length ≠ 0 := by
    simpa using h
  have htag : (if 0 < tags.length then
        (interCount tags (libTagSample db lib) : ℚ) / (tags.length : ℚ) * (2 / 5)
      else 0) =
      2 / 5 * ((interCount tags (libTagSample db lib) : ℚ) / (tags.length : ℚ)) := by
    by_cases hT : 0 < tags.length
    · rw [if_pos hT]
      ring
    · rw [if_neg hT]
      have : tags.length = 0 := Nat.eq_zero_of_not_pos hT
      rw [this]
      simp
  have hsum : ((libSamples db lib).map (fun s =>
        (interCount (pySplit (pyLower content)) (pySplit (pyLower s)) : ℚ) /
          ((pySplit content).length : ℚ))).sum =
      ((((libSamples db lib).map (fun s =>
        interCount (pySplit (pyLower content)) (pySplit (pyLower s)))).sum : ℕ) : ℚ) /
        ((pySplit content).length : ℚ) := by
    rw [Nat.cast_list_sum, List.map_map]
    rw [← sum_map_div, List.map_map]
    rfl
  simp only [calculateOverlapScore]
  by_cases hL : 0 < (pySplit content).length
  · rw [if_pos hL, if_neg hN, htag, hsum]
    ring
  · rw [if_neg hL, htag]
    have hL0 : (pySplit content).length = 0 := Nat.eq_zero_of_not_pos hL
    rw [hsum, hL0]
    simp

/-- The accumulated `duplicates` list of `_find_exact_duplicates` is empty on
every input: with no existing rows there is nothing to compare against, and
with at least one existing row the mis-unpacking `ValueError` aborts the scan
before the first append. -/
theorem exactDupLoop_fst (k : List ((String × String) × RefRow))
    (files : List CandFile) : (exactDupLoop k files).1 = [] := by
  induction files with
  | nil => rfl
  | cons f rest ih =>
    cases k with
    | nil => simpa [exactDupLoop] using ih
    | cons a t => rfl

/-! ## Claims -/

/-- C1: `analyze_content` is claimed to always return a structured analysis
report and never propagate an exception, with a missing directory reported as
a non-fatal empty-candidate result.  The code contradicts this: the `analysis`
dict literal references the name `analysis` for its `new_unique_content`
value before the assignment binds it, so every call — missing directory
included — raises `NameError`.  (`_get_document_files` itself does return the
empty candidate list for a missing directory, as claimed.) -/
theorem analyze_content_always_raises :
    (∀ (db : List RefRow) (fs : FileSys) (lib : String),
        analyzeContent db fs lib = Except.error PyErr.nameError) ∧
    getDocumentFiles exMissingDir = [] ∧
    analyzeContent [] exMissingDir "LibA" = Except.error PyErr.nameError :=
  ⟨fun _ _ _ => rfl, rfl, rfl⟩

/-- C4: a candidate whose content is whitespace-equal to an existing
content of an existing reference row is claimed to be reported as an exact duplicate.  The
code never reports anything: iterating `existing_content.items()` unpacks
each 4-tuple value into the 3-name pattern `(existing_content, folder_path,
library)`, raising `ValueError` on the first item, which the blanket `except`
swallows, returning the empty list.  At the concrete input below the
normalised contents are equal and the pass still reports nothing. -/
theorem exact_duplicates_never_reported :
    (∀ (db : List RefRow) (files : List CandFile),
        findExactDuplicates db files = []) ∧
    normalizeWs exCandFile.content = normalizeWs exRefRow.content ∧
    (exactDupLoop (pyDictKeyed [exRefRow]) [exCandFile]).2 = some PyErr.valueError ∧
    findExactDuplicates [exRefRow] [exCandFile] = [] :=
  ⟨fun db files => exactDupLoop_fst (pyDictKeyed db) files, rfl, rfl, rfl⟩

/-- C7: the uniqueness report of `_calculate_unique_content` satisfies the
claimed formula and bounds: the percentage lies in `[0, 100]`, an empty batch
yields `0` (no division fault), `unique_files` is the total minus the files
whose name has an exact duplicate or a topic-overlap score above `0.7`, and
the exclusion set contains exactly those names. -/
theorem uniqueness_report_bounds (files : List CandFile) (exact : List DupEntry)
    (overlaps : List OverlapEntry) :
    0 ≤ (calculateUniqueContent files exact overlaps).uniqueness_percentage ∧
    (calculateUniqueContent files exact overlaps).uniqueness_percentage ≤ 100 ∧
    (files = [] →
      (calculateUniqueContent files exact overlaps).uniqueness_percentage = 0) ∧
    (calculateUniqueContent files exact overlaps).unique_files =
      (calculateUniqueContent files exact overlaps).total_files -
        (files.filter (fun f =>
          (excludedSet exact overlaps).contains f.relative_path)).length ∧
    (∀ p : String, (excludedSet exact overlaps).contains p = true ↔
      (∃ d ∈ exact, d.new_file = p) ∨
      (∃ o ∈ overlaps, 7 / 10 < o.overlap_score ∧ o.new_file = p)) := by
  have hfle : (files.filter (fun f =>
      !(excludedSet exact overlaps).contains f.relative_path)).length ≤
      files.length := List.length_filter_le _ _
  refine ⟨?_, ?_, ?_, ?_, ?_⟩
  · simp only [calculateUniqueContent]
    split
    · exact le_refl 0
    · positivity
  · simp only [calculateUniqueContent]
    split
    · norm_num
    · rename_i hne
      have hpos : 0 < files.length := by
        cases files with
        | nil => simp at hne
        | cons a t => simp
      have hq : (0 : ℚ) < (files.length : ℚ) := by exact_mod_cast hpos
      have h1 : ((files.filter (fun f =>
          !(excludedSet exact overlaps).contains f.relative_path)).length : ℚ) ≤
          (files.length : ℚ) := by exact_mod_cast hfle
      calc ((files.filter (fun f =>
            !(excludedSet exact overlaps).contains f.relative_path)).length : ℚ) /
            (files.length : ℚ) * 100
          ≤ 1 * 100 := by
            apply mul_le_mul_of_nonneg_right _ (by norm_num)
            exact (div_le_one hq).2 h1
        _ = 100 := by norm_num
  · intro h
    subst h
    rfl
  · simpa [calculateUniqueContent] using
      length_filter_not_eq
        (fun f => (excludedSet exact overlaps).contains f.relative_path) files
  · intro p
    simp only [excludedSet, List.elem_eq_mem, List.mem_dedup, List.mem_append,
      List.mem_map, List.mem_filter, decide_eq_true_eq]
    constructor
    · rintro (⟨d, hd, hdp⟩ | ⟨o, ⟨ho, hsc⟩, hop⟩)
      · exact Or.inl ⟨d, hd, hdp⟩
      · exact Or.inr ⟨o, ho, hsc, hop⟩
    · rintro (⟨d, hd, hdp⟩ | ⟨o, ho, hsc, hop⟩)
      · exact Or.inl ⟨d, hd, hdp⟩
      · exact Or.inr ⟨o, ⟨ho, hsc⟩, hop⟩

/-- C2 counterexample: on a freshly-initialised empty store the archived
pattern search does *not* degrade to an empty sequence — its legacy fallback
queries the absent v1 `knowledge` table and the `OperationalError`
propagates, crashing the archived top-level hybrid search. -/
theorem archived_pattern_search_empty_store_raises :
    archivedSearchPatterns (fun rows _ => rows) emptyStore "swift" 5 =
      Except.error PyErr.operationalError ∧
    archivedSearch (fun rows _ => rows) (fun rows _ => rows) emptyStore
      "swift" 5 = Except.error PyErr.operationalError :=
  ⟨rfl, rfl⟩

/-- C2 (amended): with the backing index tables absent, the token-optimized
pattern and reference searches and the archived reference search all return
the empty sequence, and the token-optimized top-level search returns
`no_knowledge_found`; only the archived pattern search instead falls back to
the legacy `knowledge` table and raises when that is absent too (see the
counterexample). -/
theorem search_missing_table_degrades
    (fts : List PatternRow → String → List PatternRow)
    (ftsR : List RefDoc → String → List RefDoc) (s : Store) (q dl : String)
    (lim : ℕ) (hp : s.patterns? = none) (hr : s.reference? = none) :
    tokenOptSearchPatterns fts s q lim = [] ∧
    tokenOptSearchReference ftsR s q lim = [] ∧
    archivedSearchReference ftsR s q lim = [] ∧
    tokenOptSearch fts ftsR s q dl = tokenOptNoKnowledge ∧
    (tokenOptSearch fts ftsR s q dl).status = "no_knowledge_found" := by
  have h1 : ∀ n, tokenOptSearchPatterns fts s q n = [] := by
    intro n
    unfold tokenOptSearchPatterns
    rw [hp]
  have h2 : ∀ n, tokenOptSearchReference ftsR s q n = [] := by
    intro n
    unfold tokenOptSearchReference
    rw [hr]
  have h4 : tokenOptSearch fts ftsR s q dl = tokenOptNoKnowledge := by
    unfold tokenOptSearch
    rw [h1 3]
    unfold tokenOptReferenceStage
    rw [h2 3]
  refine ⟨h1 lim, h2 lim, ?_, h4, by rw [h4]; rfl⟩
  unfold archivedSearchReference
  rw [hr]

/-- C2 witness: the empty store instantiation. -/
theorem search_missing_table_degrades_witness :
    tokenOptSearchPatterns (fun rows _ => rows) emptyStore "swift" 3 = [] ∧
    (tokenOptSearch (fun rows _ => rows) (fun rows _ => rows) emptyStore
      "swift" "summary").status = "no_knowledge_found" :=
  ⟨(search_missing_table_degrades (fun rows _ => rows) (fun rows _ => rows)
      emptyStore "swift" "summary" 3 rfl rfl).1,
   (search_missing_table_degrades (fun rows _ => rows) (fun rows _ => rows)
      emptyStore "swift" "summary" 3 rfl rfl).2.2.2.2⟩

/-- C3 counterexample: with a pattern hit but an unrecognised detail level
(`"xyz"`, reachable from the raw second CLI argument), the token-optimized
search skips every pattern branch, searches reference anyway and ends in
`no_knowledge_found` — not `pattern_found` as claimed. -/
theorem invalid_detail_level_breaks_precedence :
    tokenOptSearchPatterns (fun rows _ => rows) exPatternStore "query" 3 =
      [exPatternRow] ∧
    (tokenOptSearch (fun rows _ => rows) (fun rows _ => rows) exPatternStore
      "query" "xyz").status = "no_knowledge_found" :=
  ⟨rfl, rfl⟩

/-- C3 (amended): for the supported detail levels (`summary`, `details`,
`full`) a non-empty pattern result makes the token-optimized search return
`pattern_found` with the highest-ranked pattern as source, without consulting
the reference table (the result is invariant under any change of the
reference table and its ranking); the archived hybrid search does the same
unconditionally.  For any other detail level the pattern branch is skipped
(see the counterexample). -/
theorem hybrid_pattern_precedence
    (fts : List PatternRow → String → List PatternRow)
    (ftsR ftsR' : List RefDoc → String → List RefDoc) (s : Store)
    (ref' : Option (List RefDoc)) (q dl : String) (lim : ℕ)
    (best : PatternRow) (rest : List PatternRow)
    (hdl : dl = "summary" ∨ dl = "details" ∨ dl = "full")
    (hp : tokenOptSearchPatterns fts s q 3 = best :: rest) :
    (tokenOptSearch fts ftsR s q dl).status = "pattern_found" ∧
    (tokenOptSearch fts ftsR s q dl).source = some best.title ∧
    tokenOptSearch fts ftsR s q dl =
      tokenOptSearch fts ftsR' { s with reference? := ref' } q dl ∧
    (∀ (pb : PatternRow) (pr : List PatternRow),
        archivedSearchPatterns fts s q lim = .ok (pb :: pr) →
        archivedSearch fts ftsR s q lim =
          .ok { status := "pattern_found", source := some pb.title,
                summary := none,
                reasoning := "Found relevant solution in Maxwell patterns database",
                knowledge_type := "pattern", library := none }) := by
  have hp' : tokenOptSearchPatterns fts { s with reference? := ref' } q 3 =
      best :: rest := hp
  refine ⟨?_, ?_, ?_, ?_⟩
  · rcases hdl with h | h | h <;> subst h <;>
      (unfold tokenOptSearch; rw [hp]; rfl)
  · rcases hdl with h | h | h <;> subst h <;>
      (unfold tokenOptSearch; rw [hp]; rfl)
  · rcases hdl with h | h | h <;> subst h <;>
      (unfold tokenOptSearch; rw [hp, hp']; rfl)
  · intro pb pr hq
    unfold archivedSearch
    rw [hq]

/-- C3 witness: one pattern row, detail level `summary`. -/
theorem hybrid_pattern_precedence_witness :
    (tokenOptSearch (fun rows _ => rows) (fun rows _ => rows) exPatternStore
      "query" "summary").status = "pattern_found" :=
  (hybrid_pattern_precedence (fun rows _ => rows) (fun rows _ => rows)
    (fun rows _ => rows) exPatternStore (some []) "query" "summary" 5
    exPatternRow [] (Or.inl rfl) rfl).1

/-- C6 counterexample: the archived pattern search passes the raw query to
the index (no sanitisation); for `@Dependency(\.client)` the primary parse
failure is caught but the legacy fallback parses the same raw query and the
`OperationalError` propagates — even with every table present.  The
knowledge-base search sanitises and succeeds on the same query. -/
theorem archived_search_raw_query_raises :
    ftsParseOk "@Dependency(\\.client)" = false ∧
    archivedSearchPatterns (fun rows _ => rows) exLegacyStore
      "@Dependency(\\.client)" 5 = Except.error PyErr.operationalError ∧
    searchKnowledge (fun kdb _ => kdb) [] "@Dependency(\\.client)" 5 =
      Except.ok [] :=
  ⟨rfl, rfl, rfl⟩

/-- C6 (amended): the knowledge-base search replaces every `@`, `:`, `(`,
`)` and `.` of the query with a space before passing it to the index — the
sanitised query contains no grammar-significant character, so the search
always completes with an (possibly empty) result, never a query-parse
exception.  The archived pattern search passes the query raw and can raise
(see the counterexample). -/
theorem sanitized_search_never_parse_errors
    (q : String) (fts : List KRow → String → List KRow) (db : List KRow)
    (lim : ℕ) :
    (cleanQuery q).data.all (fun c => !ftsSignificant c) = true ∧
    ftsParseOk (cleanQuery q) = true ∧
    searchKnowledge fts db q lim = Except.ok ((fts db (cleanQuery q)).take lim) := by
  refine ⟨?_, ftsParseOk_cleanQuery q, searchKnowledge_ok fts db q lim⟩
  rw [cleanQuery_data, List.all_map]
  apply List.all_eq_true.2
  intro c _
  simp [ftsSignificant_cleanChar]

/-- C5: reimport is claimed to keep the total reference count stable because
each record is keyed by a derived id and replaced on conflict.  The derived
id embeds the salted builtin Python `hash` of the relative path, which is
constant only within one process: with the *same* hash function reimport
indeed preserves the count (first conjunct), but across two process
invocations with different seeds the same single-file directory yields two
records instead of one (last conjunct), because the id of the second run differs
and `INSERT OR REPLACE` appends rather than replaces. -/
theorem reimport_count_depends_on_hash_seed :
    (∀ (pyHash : String → ℤ) (fs : FileSys) (lib : String),
        ((importReferenceDocumentation pyHash fs lib
            (importReferenceDocumentation pyHash fs lib []).1).1).length =
          ((importReferenceDocumentation pyHash fs lib []).1).length) ∧
    ((importReferenceDocumentation exHashA exOneFileDir "SQLiteData" []).1).length
      = 1 ∧
    ((importReferenceDocumentation exHashB exOneFileDir "SQLiteData"
        (importReferenceDocumentation exHashA exOneFileDir "SQLiteData"
          []).1).1).length = 2 := by
  refine ⟨?_, rfl, rfl⟩
  intro pyHash fs lib
  by_cases hd : fs.dirExists
  · simp only [importReferenceDocumentation, hd, if_true]
    rw [importRefLoop_eq_upsertAll, importRefLoop_eq_upsertAll]
    apply upsertAll_length_stable
    · exact upsertAll_nodup _ _ [] (by simp)
    · intro x hx
      exact upsertAll_present _ _ [] x hx
  · simp [importReferenceDocumentation, hd]

/-- C9: the id of each synthesized pattern is claimed to be a deterministic
hash of the document title scoped by pattern subtype, with the upsert
replacing so that re-synthesis is idempotent at the id level.  The id shape
is indeed `<subtype>-(hash(title) % 10000)` (first conjunct), but the claim
fails twice over: the `patterns` table is created without any primary key or
unique constraint (`CREATE TABLE patterns AS SELECT`, migrate-database.py:29),
so `INSERT OR REPLACE` never has a conflict to replace and every save appends
— re-saving the very same batch, identical ids included, doubles the count
(second and third conjuncts) — and the builtin `hash` is salted per process,
so the same title does not even keep its id across two synthesis runs (last
conjunct). -/
theorem synthesis_save_never_replaces :
    (∀ (pyHash : String → ℤ) (t c f : String),
        (createPerformancePattern pyHash t c f).id =
          "sqlitedata-perf-" ++ toString (pyHash t % 10000) ∧
        (createConceptualPattern pyHash t c f).id =
          "tca-concept-" ++ toString (pyHash t % 10000)) ∧
    (∀ (db ps : List SynthPattern),
        (saveSynthesizedPatterns db ps).length = db.length + ps.length) ∧
    (saveSynthesizedPatterns
        (saveSynthesizedPatterns []
          [createPerformancePattern exHashA "Fast Queries" "c" "Articles"])
        [createPerformancePattern exHashA "Fast Queries" "c" "Articles"]).length
      = 2 ∧
    (createPerformancePattern exHashA "Fast Queries" "c" "Articles").id ≠
      (createPerformancePattern exHashB "Fast Queries" "c" "Articles").id :=
  ⟨fun pyHash t c f => ⟨rfl, rfl⟩,
   fun db ps => saveSynthesizedPatterns_length ps db,
   rfl, by decide⟩

/-- C8: against any library with at least one document, `_calculate_overlap_score`
equals `0.4 × (fraction of the distinct candidate tags present in the
tag sample of the library) + 0.6 × (per-sample-document average of the
fraction of the candidate content words present in that sample document)`,
over a sample of at most 5 documents of the library; and a candidate appears in
the topic-overlap report for a library exactly when this score exceeds 0.3
(every reported entry exceeds 0.3, and every pair scoring above 0.3 is
reported with that score). -/
theorem topic_overlap_score_spec (db : List RefRow) (content lib : String)
    (tags : List String) (files : List CandFile) (name : String)
    (h : libSamples db lib ≠ []) :
    calculateOverlapScore db content tags lib =
      2 / 5 * ((interCount tags (libTagSample db lib) : ℚ) / (tags.length : ℚ)) +
      3 / 5 * (((libSamples db lib).map (fun s =>
          (interCount (pySplit (pyLower content)) (pySplit (pyLower s)) : ℚ) /
            ((pySplit content).length : ℚ))).sum /
        ((libSamples db lib).length : ℚ)) ∧
    (∀ e ∈ findTopicOverlaps db files name, 3 / 10 < e.overlap_score) ∧
    (∀ f ∈ files, ∀ l ∈ distinctLibraries db,
        3 / 10 < calculateOverlapScore db f.content_preview f.tags l →
        ({ new_file := f.relative_path, existing_library := l,
           overlap_score := calculateOverlapScore db f.content_preview f.tags l,
           common_tags := findCommonTags db f.tags l } : OverlapEntry) ∈
          findTopicOverlaps db files name) :=
  ⟨calculateOverlapScore_eq db content tags lib h,
   findTopicOverlaps_score db files name,
   fun f hf l hl hsc => findTopicOverlaps_mem db files name f l hf hl hsc⟩

/-- C8 witness: a one-document library. -/
theorem topic_overlap_score_spec_witness :
    libSamples exOverlapDb "LibA" ≠ [] ∧
    calculateOverlapScore exOverlapDb "swift notes" ["swift"] "LibA" =
      2 / 5 * ((interCount ["swift"] (libTagSample exOverlapDb "LibA") : ℚ) /
        ((["swift"] : List String).length : ℚ)) +
      3 / 5 * (((libSamples exOverlapDb "LibA").map (fun s =>
          (interCount (pySplit (pyLower "swift notes")) (pySplit (pyLower s)) : ℚ) /
            ((pySplit "swift notes").length : ℚ))).sum /
        ((libSamples exOverlapDb "LibA").length : ℚ)) :=
  ⟨by decide,
   (topic_overlap_score_spec exOverlapDb "swift notes" "LibA" ["swift"] [] "x"
     (by decide)).1⟩

/-- C10: the query cache holds at most 50 entries and, at capacity, evicts
the oldest-inserted entry (the head of the insertion-ordered dict); a repeat
of the identical query with no intervening writes is answered from the cache
without touching the search stage (the reply does not depend on the search
function, the table contents or the clock) and carries the same `status`,
`solution`, `source`, `reasoning` and the originally measured
`response_time`. -/
theorem query_cache_fifo_and_consistency
    (md5Hex : String → String) (fts fts2 : List KRow → String → List KRow)
    (db db2 : List KRow) (t1 t2 : ℚ) (cache : Cache) (q : String)
    (hlen : cache.length ≤ 50) :
    (∀ (k : String) (r : SolveResult), (cacheResult cache k r).length ≤ 50) ∧
    (cache.length = 50 → ∀ (k : String) (r : SolveResult),
        cacheResult cache k r = assocInsert cache.tail k r) ∧
    (∀ (r1 : SolveResult) (c1 : Cache),
        solveDeveloperProblem md5Hex fts db t1 cache q = .ok (r1, c1) →
        ∃ r2 : SolveResult,
          solveDeveloperProblem md5Hex fts2 db2 t2 c1 q = .ok (r2, c1) ∧
          r2.status = r1.status ∧ r2.solution = r1.solution ∧
          r2.source = r1.source ∧ r2.response_time = r1.response_time ∧
          r2.reasoning = r1.reasoning) := by
  refine ⟨?_, ?_, ?_⟩
  · intro k r
    simp only [cacheResult]
    by_cases hc : cacheLimit ≤ cache.length
    · rw [if_pos hc]
      have h1 := assocInsert_length_le cache.tail k r
      have h2 : cache.tail.length + 1 ≤ 50 := by
        cases cache with
        | nil => simp
        | cons a t => simpa using hlen
      omega
    · rw [if_neg hc]
      have h1 := assocInsert_length_le cache k r
      unfold cacheLimit at hc
      omega
  · intro h50 k r
    simp only [cacheResult]
    rw [if_pos (by unfold cacheLimit; omega)]
  · intro r1 c1 hcall
    simp only [solveDeveloperProblem] at hcall
    cases hget : dictGet cache (md5Hex q) with
    | some cached =>
      rw [hget] at hcall
      simp only [Except.ok.injEq, Prod.mk.injEq] at hcall
      obtain ⟨hr1, hc1⟩ := hcall
      subst hc1
      subst hr1
      refine ⟨{ status := cached.status, solution := cached.solution,
                source := cached.source, response_time := cached.response_time,
                reasoning := cached.reasoning, tags := none },
        ?_, rfl, rfl, rfl, rfl, rfl⟩
      simp only [solveDeveloperProblem]
      rw [hget]
    | none =>
      rw [hget, searchKnowledge_ok] at hcall
      simp only [Except.ok.injEq, Prod.mk.injEq] at hcall
      obtain ⟨hr1, hc1⟩ := hcall
      subst hc1
      refine ⟨{ status := r1.status, solution := r1.solution,
                source := r1.source, response_time := r1.response_time,
                reasoning := r1.reasoning, tags := none },
        ?_, rfl, rfl, rfl, rfl, rfl⟩
      simp only [solveDeveloperProblem]
      rw [dictGet_cacheResult, hr1]

/-- C10 witness: capacity bound at the empty cache. -/
theorem query_cache_fifo_witness :
    (cacheResult [] "k" exSolveResult).length ≤ 50 :=
  (query_cache_fifo_and_consistency (fun s => s) (fun kdb _ => kdb)
    (fun kdb _ => kdb) [] [] 0 0 [] "q" (by simp)).1 "k" exSolveResult

end Maxwell
